import Mathlib

/-!
Verification development for the NeoWS-Monitor pipeline (src/app.py).

The pipeline is embedded shallowly:
* dates are modelled as integers counting days, so `(end_date - start_date).days`
  is plain integer subtraction;
* Python/numpy floats are modelled exactly as rationals (`ℚ`), with the one
  IEEE-specific behaviour that matters (division by zero producing `inf`,
  which a `min` with a finite bound clamps) encoded explicitly at the point
  where the source relies on it;
* the nested JSON payload is modelled as structures, with a second variant
  whose fields are `Option`s to model dictionary access that can raise
  `KeyError` (`Except Unit`).
-/

namespace NeoWS

/-- One close-approach entry of a raw object, as the fields the source reads:
`close_approach_date`, `float(miss_distance.kilometers)`,
`float(relative_velocity.kilometers_per_hour)` (app.py lines 63-65). -/
structure CloseApproach where
  close_approach_date : String
  miss_distance_km : ℚ
  relative_velocity_kph : ℚ
deriving Repr, DecidableEq

/-- One raw NEO object, as the fields the source reads in the normalization
loop (app.py lines 53-66). -/
structure RawObject where
  id : String
  name : String
  diameter_min_km : ℚ
  diameter_max_km : ℚ
  is_hazardous : Bool
  close_approach_data : List CloseApproach
deriving Repr, DecidableEq

/-- The upstream payload: `element_count` and the `near_earth_objects`
mapping from date strings to object lists (app.py lines 45-48), the mapping
modelled as an association list in iteration order. -/
structure RawResponse where
  element_count : Nat
  near_earth_objects : List (String × List RawObject)
deriving Repr, DecidableEq

/-- The flat record built for each qualifying object (app.py lines 56-66),
together with the derived `avg_diameter_km` column added right after the
loop (app.py line 70). -/
structure FlatRecord where
  id : String
  name : String
  date : String
  diameter_min_km : ℚ
  diameter_max_km : ℚ
  is_hazardous : Bool
  close_approach_date : String
  miss_distance_km : ℚ
  relative_velocity_kph : ℚ
  avg_diameter_km : ℚ
deriving Repr, DecidableEq

/-- Body of the normalization loop for one object (app.py lines 52-67):
an object with empty `close_approach_data` is skipped (`continue`), otherwise
one record is built from the first close-approach entry.  The derived
`avg_diameter_km = (diameter_min_km + diameter_max_km) / 2` of app.py line 70
is attached here; the source computes it columnwise over the assembled frame,
which is the same elementwise value. -/
def flattenObject (date : String) (a : RawObject) : Option FlatRecord :=
  match a.close_approach_data with
  | [] => none
  | ca :: _ =>
      some
        { id := a.id
          name := a.name
          date := date
          diameter_min_km := a.diameter_min_km
          diameter_max_km := a.diameter_max_km
          is_hazardous := a.is_hazardous
          close_approach_date := ca.close_approach_date
          miss_distance_km := ca.miss_distance_km
          relative_velocity_kph := ca.relative_velocity_kph
          avg_diameter_km := (a.diameter_min_km + a.diameter_max_km) / 2 }

/-- The Record Normalizer: the double loop of app.py lines 51-67 over
`(date, asteroids)` pairs and objects, collecting the flat records in
iteration order. -/
def normalize (resp : RawResponse) : List FlatRecord :=
  resp.near_earth_objects.flatMap fun p => p.2.filterMap (flattenObject p.1)

/-- Number of objects actually present in the `near_earth_objects` mapping:
the count the normalization loop iterates over. -/
def totalObjectCount (resp : RawResponse) : Nat :=
  (resp.near_earth_objects.map fun p => p.2.length).sum

/-- Result of the date-window validation of app.py lines 27-30: the
(possibly adjusted) window plus whether the `st.warning` clamp branch ran. -/
structure ClampResult where
  start_date : ℤ
  end_date : ℤ
  clamped : Bool
deriving Repr, DecidableEq

/-- The Date Window Validator (app.py lines 27-30): dates as day numbers, so
`date_diff = (end_date - start_date).days` is integer subtraction; if the
difference exceeds 7, the end date becomes `start_date + 7 days` and the
warning is shown. -/
def clampWindow (start_date end_date : ℤ) : ClampResult :=
  if end_date - start_date > 7 then ⟨start_date, start_date + 7, true⟩
  else ⟨start_date, end_date, false⟩

/-- The hazardous count of the summary statistics, `df['is_hazardous'].sum()`
(app.py line 77): the number of records whose flag is set. -/
def hazardous_count (l : List FlatRecord) : Nat :=
  (l.filter fun r => r.is_hazardous).length

/-- The hazardous percentage `hazardous_count/len(df)*100` of app.py line 78.
The source has no guard for `len(df) = 0`; `none` models the resulting
division fault (Python `ZeroDivisionError` on ints, a silent `nan` on numpy
scalars), not a structured error value — no branch of the source produces
an explicit empty-corpus result. -/
def hazardous_pct (l : List FlatRecord) : Option ℚ :=
  if l.length = 0 then none
  else some ((hazardous_count l : ℚ) / (l.length : ℚ) * 100)

/-- The mean size `df['avg_diameter_km'].mean()` of app.py line 80.  As with
`hazardous_pct`, the source has no empty-corpus guard; `none` models the
fault/`nan` at length 0. -/
def mean_avg_diameter (l : List FlatRecord) : Option ℚ :=
  if l.length = 0 then none
  else some ((l.map fun r => r.avg_diameter_km).sum / (l.length : ℚ))

/-- The filter/sort state the presentation layer feeds to the selection code
(app.py lines 112-124). -/
structure SelectionState where
  hazardous_only : Bool
  min_size_km : ℚ
deriving Repr, DecidableEq

/-- First filter step (app.py lines 117-118): when `show_hazardous` is set,
keep only records with the hazard flag. -/
def filterHazard (s : SelectionState) (l : List FlatRecord) : List FlatRecord :=
  if s.hazardous_only then l.filter (fun r => r.is_hazardous) else l

/-- Second filter step (app.py line 119): keep records with
`avg_diameter_km >= size_threshold`. -/
def filterSize (s : SelectionState) (l : List FlatRecord) : List FlatRecord :=
  l.filter fun r => decide (s.min_size_km ≤ r.avg_diameter_km)

/-- `size_factor = min(avg_diameter_km / 0.5, 1)` (app.py line 157). -/
def size_factor (avg : ℚ) : ℚ :=
  min (avg / (1 / 2)) 1

/-- `distance_factor = min(1000000 / miss_distance_km, 1)` (app.py line 158).
The operand is a numpy `float64`: at `miss_distance_km = 0` the division
yields `+inf` (a warning, not an exception) and `min(+inf, 1) = 1`, so the
zero case is encoded as the clamped value 1. -/
def distance_factor (miss : ℚ) : ℚ :=
  if miss = 0 then 1 else min (1000000 / miss) 1

/-- The hazard score (app.py lines 155-159): 0 unless the record is flagged
hazardous, otherwise `(size_factor * 0.7 + distance_factor * 0.3) * 100`. -/
def hazard_level (r : FlatRecord) : ℚ :=
  if r.is_hazardous then
    (size_factor r.avg_diameter_km * (7 / 10)
      + distance_factor r.miss_distance_km * (3 / 10)) * 100
  else 0

/-- The three context messages of app.py lines 163-168, as a tier. -/
inductive Tier where
  | low
  | medium
  | high
deriving Repr, DecidableEq

/-- Tier mapping of app.py lines 163-168: `> 70` high, `> 40` medium,
otherwise low. -/
def tier (score : ℚ) : Tier :=
  if score > 70 then Tier.high
  else if score > 40 then Tier.medium
  else Tier.low

/-- A close-approach entry whose leaf fields may be absent, to model the
JSON dictionary the source indexes directly. -/
structure CloseApproachOpt where
  close_approach_date : Option String
  miss_distance_km : Option ℚ
  relative_velocity_kph : Option ℚ
deriving Repr, DecidableEq

/-- A raw object whose required nested fields may be absent. -/
structure RawObjectOpt where
  id : Option String
  name : Option String
  diameter_min_km : Option ℚ
  diameter_max_km : Option ℚ
  is_hazardous : Option Bool
  close_approach_data : Option (List CloseApproachOpt)
deriving Repr, DecidableEq

/-- A raw payload over objects with possibly missing fields. -/
structure RawResponseOpt where
  near_earth_objects : List (String × List RawObjectOpt)
deriving Repr, DecidableEq

/-- Dictionary access `d['key']`: raises `KeyError` (modelled as
`Except.error ()`) when the key is absent. -/
def getField {α : Type} : Option α → Except Unit α
  | some a => Except.ok a
  | none => Except.error ()

/-- The loop body of app.py lines 52-67 over an object with possibly missing
fields: every field access is a plain indexing that raises on a missing key.
There is no `try`/`except` in the source, so a raised `KeyError` propagates
out of the whole loop. -/
def flattenObjectChecked (date : String) (a : RawObjectOpt) :
    Except Unit (Option FlatRecord) := do
  let cad ← getField a.close_approach_data
  match cad with
  | [] => return none
  | ca :: _ =>
      let i ← getField a.id
      let n ← getField a.name
      let dmin ← getField a.diameter_min_km
      let dmax ← getField a.diameter_max_km
      let hz ← getField a.is_hazardous
      let cadate ← getField ca.close_approach_date
      let miss ← getField ca.miss_distance_km
      let vel ← getField ca.relative_velocity_kph
      return some
        { id := i
          name := n
          date := date
          diameter_min_km := dmin
          diameter_max_km := dmax
          is_hazardous := hz
          close_approach_date := cadate
          miss_distance_km := miss
          relative_velocity_kph := vel
          avg_diameter_km := (dmin + dmax) / 2 }

/-- The inner loop over one date's object list, propagating a raised
`KeyError` (no handler exists in the source). -/
def flattenListChecked (date : String) :
    List RawObjectOpt → Except Unit (List FlatRecord)
  | [] => Except.ok []
  | a :: rest => do
      let r? ← flattenObjectChecked date a
      let rest' ← flattenListChecked date rest
      match r? with
      | none => return rest'
      | some r => return r :: rest'

/-- The Normalizer over a payload with possibly missing fields: the double
loop of app.py lines 51-67 with `KeyError` propagation. -/
def normalizeChecked (resp : RawResponseOpt) : Except Unit (List FlatRecord) :=
  go resp.near_earth_objects
where
  go : List (String × List RawObjectOpt) → Except Unit (List FlatRecord)
    | [] => Except.ok []
    | p :: ps => do
        let here ← flattenListChecked p.1 p.2
        let rest ← go ps
        return here ++ rest

/-- Number of well-formed objects with a non-empty approach list: the records
a skip-and-continue policy would produce. -/
def wellFormedQualifyingCount (resp : RawResponseOpt) : Nat :=
  (resp.near_earth_objects.map fun p =>
    (p.2.filter fun a => ((flattenObjectChecked p.1 a).toOption.join).isSome).length).sum

/-- Helper building a flat record with the fields the scorer and the
aggregates read; the remaining fields are fixed harmless values. -/
def mkRec (hz : Bool) (avg miss : ℚ) : FlatRecord :=
  { id := "a"
    name := "a"
    date := "2024-01-01"
    diameter_min_km := 0
    diameter_max_km := 0
    is_hazardous := hz
    close_approach_date := "2024-01-01"
    miss_distance_km := miss
    relative_velocity_kph := 0
    avg_diameter_km := avg }

/-- The close-approach entry of the spec's worked scenario. -/
def rockApproach : CloseApproach :=
  { close_approach_date := "2024-01-01", miss_distance_km := 500000,
    relative_velocity_kph := 40000 }

/-- The raw object of the spec's worked scenario. -/
def rockObject : RawObject :=
  { id := "1", name := "Rock", diameter_min_km := 1 / 10,
    diameter_max_km := 3 / 10, is_hazardous := true,
    close_approach_data := [rockApproach] }

/-- The raw payload of the spec's worked scenario: one date key with one
object. -/
def rockResponse : RawResponse :=
  { element_count := 1, near_earth_objects := [("2024-01-01", [rockObject])] }

/-- The flat record the worked scenario expects; its average diameter is
written as the pipeline computes it and equals 1/5. -/
def rockRecord : FlatRecord :=
  { id := "1"
    name := "Rock"
    date := "2024-01-01"
    diameter_min_km := 1 / 10
    diameter_max_km := 3 / 10
    is_hazardous := true
    close_approach_date := "2024-01-01"
    miss_distance_km := 500000
    relative_velocity_kph := 40000
    avg_diameter_km := (1 / 10 + 3 / 10) / 2 }

/-- A raw object with an empty close-approach sequence. -/
def noApproachObject : RawObject :=
  { id := "7", name := "Silent", diameter_min_km := 1 / 10,
    diameter_max_km := 3 / 10, is_hazardous := false,
    close_approach_data := [] }

/-- A payload containing only an object with no close approaches. -/
def noApproachResponse : RawResponse :=
  { element_count := 1,
    near_earth_objects := [("2024-01-01", [noApproachObject])] }

/-- A hazardous record for concrete aggregate evaluations. -/
def hazRec : FlatRecord := mkRec true (1 / 5) 1000

/-- A non-hazardous record for concrete aggregate evaluations. -/
def nonHazRec : FlatRecord := mkRec false (1 / 5) 1000

/-- A raw object whose estimated-diameter bounds are negative numbers:
nothing in the source constrains the parsed floats. -/
def negObject : RawObject :=
  { id := "9", name := "Dip", diameter_min_km := -2, diameter_max_km := 0,
    is_hazardous := true,
    close_approach_data :=
      [{ close_approach_date := "2024-01-02", miss_distance_km := 500000,
         relative_velocity_kph := 1 }] }

/-- A payload containing only `negObject`. -/
def negResponse : RawResponse :=
  { element_count := 1, near_earth_objects := [("2024-01-02", [negObject])] }

/-- The flat record the pipeline derives from `negObject`: its average
diameter is (-2 + 0) / 2 = -1, a negative value. -/
def negDiaRecord : FlatRecord :=
  { id := "9"
    name := "Dip"
    date := "2024-01-02"
    diameter_min_km := -2
    diameter_max_km := 0
    is_hazardous := true
    close_approach_date := "2024-01-02"
    miss_distance_km := 500000
    relative_velocity_kph := 1
    avg_diameter_km := (-2 + 0) / 2 }

/-- A well-behaved hazardous record with nonnegative fields. -/
def okRecord : FlatRecord := mkRec true (1 / 4) 1000

/-- A hazardous record with miss distance exactly zero. -/
def recMiss0 : FlatRecord := mkRec true (1 / 5) 0

/-- Monotonicity fixture: small diameter, fixed miss distance. -/
def wrA : FlatRecord := mkRec true (1 / 10) 500000

/-- Monotonicity fixture: larger diameter, same miss distance as `wrA`. -/
def wrB : FlatRecord := mkRec true (3 / 10) 500000

/-- Monotonicity fixture: fixed diameter, small miss distance. -/
def wrC : FlatRecord := mkRec true (1 / 5) 400000

/-- Monotonicity fixture: same diameter as `wrC`, larger miss distance. -/
def wrD : FlatRecord := mkRec true (1 / 5) 800000

/-- A fully populated close-approach entry for the Option-field model. -/
def wellApproachOpt : CloseApproachOpt :=
  { close_approach_date := some "2024-01-01", miss_distance_km := some 600000,
    relative_velocity_kph := some 30000 }

/-- A well-formed raw object in the Option-field model. -/
def wellObjectOpt : RawObjectOpt :=
  { id := some "2", name := some "Good", diameter_min_km := some (1 / 10),
    diameter_max_km := some (3 / 10), is_hazardous := some true,
    close_approach_data := some [wellApproachOpt] }

/-- A malformed raw object: the nested minimum-diameter field is absent. -/
def malformedObjectOpt : RawObjectOpt :=
  { id := some "3", name := some "Bad", diameter_min_km := none,
    diameter_max_km := some (3 / 10), is_hazardous := some true,
    close_approach_data := some [wellApproachOpt] }

/-- The flat record the loop builds from `wellObjectOpt`. -/
def wellRecord : FlatRecord :=
  { id := "2"
    name := "Good"
    date := "2024-01-01"
    diameter_min_km := 1 / 10
    diameter_max_km := 3 / 10
    is_hazardous := true
    close_approach_date := "2024-01-01"
    miss_distance_km := 600000
    relative_velocity_kph := 30000
    avg_diameter_km := (1 / 10 + 3 / 10) / 2 }

/-- A payload holding one malformed and one well-formed object under the
same date key. -/
def mixedResponse : RawResponseOpt :=
  { near_earth_objects := [("2024-01-01", [malformedObjectOpt, wellObjectOpt])] }

/-- The same payload with only the well-formed object. -/
def wellOnlyResponse : RawResponseOpt :=
  { near_earth_objects := [("2024-01-01", [wellObjectOpt])] }

/-- `flattenObject` produces a record exactly when the approach list is
non-empty. -/
theorem flattenObject_isSome_iff (date : String) (a : RawObject) :
    (flattenObject date a).isSome = true ↔ a.close_approach_data ≠ [] := by
  obtain ⟨i, n, dmin, dmax, hz, cad⟩ := a
  cases cad <;> simp [flattenObject]

/-- A `filterMap` never lengthens a list. -/
theorem length_filterMap_le' {α β : Type} (f : α → Option β) (l : List α) :
    (l.filterMap f).length ≤ l.length := by
  induction l with
  | nil => simp
  | cons a t ih =>
      cases h : f a <;> simp [List.filterMap_cons, h] <;> omega

/-- A `filterMap` preserves the length exactly when every element maps to
`some`. -/
theorem length_filterMap_eq_iff' {α β : Type} (f : α → Option β) (l : List α) :
    (l.filterMap f).length = l.length ↔ ∀ a ∈ l, (f a).isSome = true := by
  induction l with
  | nil => simp
  | cons a t ih =>
      cases h : f a with
      | none =>
          simp only [List.filterMap_cons, h, List.length_cons, List.mem_cons]
          constructor
          · intro he
            have hle := length_filterMap_le' f t
            omega
          · intro hall
            have := hall a (Or.inl rfl)
            simp [h] at this
      | some b =>
          have hs : (f a).isSome = true := by simp [h]
          simp only [List.filterMap_cons, h, List.length_cons, List.mem_cons]
          constructor
          · intro he x hx
            rcases hx with rfl | hx
            · exact hs
            · exact (ih.mp (by omega)) x hx
          · intro hall
            have := ih.mpr fun x hx => hall x (Or.inr hx)
            omega

/-- The length of a `flatMap` is the sum of the lengths of the pieces. -/
theorem length_flatMap_eq {α β : Type} (f : α → List β) (L : List α) :
    (L.flatMap f).length = (L.map fun a => (f a).length).sum := by
  induction L with
  | nil => rfl
  | cons a t ih => simp [List.flatMap_cons, ih]

/-- Summing a pointwise-smaller function over a list gives a smaller sum. -/
theorem sum_map_le_nat {α : Type} (f g : α → ℕ) (L : List α)
    (h : ∀ x ∈ L, f x ≤ g x) : (L.map f).sum ≤ (L.map g).sum := by
  induction L with
  | nil => simp
  | cons a t ih =>
      simp only [List.map_cons, List.sum_cons]
      have ha := h a (by simp)
      have ht := ih fun x hx => h x (by simp [hx])
      omega

/-- With a pointwise bound, the sums agree exactly when the functions agree
on every element. -/
theorem sum_map_eq_iff_nat {α : Type} (f g : α → ℕ) (L : List α)
    (h : ∀ x ∈ L, f x ≤ g x) :
    (L.map f).sum = (L.map g).sum ↔ ∀ x ∈ L, f x = g x := by
  induction L with
  | nil => simp
  | cons a t ih =>
      simp only [List.map_cons, List.sum_cons, List.mem_cons]
      have ha := h a (by simp)
      have ht : ∀ x ∈ t, f x ≤ g x := fun x hx => h x (by simp [hx])
      have hsum := sum_map_le_nat f g t ht
      constructor
      · intro he
        have h1 : f a = g a := by omega
        have h2 : (t.map f).sum = (t.map g).sum := by omega
        intro x hx
        rcases hx with rfl | hx
        · exact h1
        · exact ((ih ht).mp h2) x hx
      · intro hall
        have h1 := hall a (Or.inl rfl)
        have h2 := (ih ht).mpr fun x hx => hall x (Or.inr hx)
        omega

/-- The size factor is never above 1. -/
theorem size_factor_le_one (d : ℚ) : size_factor d ≤ 1 :=
  min_le_right _ _

/-- The size factor is nonnegative for nonnegative diameters. -/
theorem size_factor_nonneg {d : ℚ} (hd : 0 ≤ d) : 0 ≤ size_factor d :=
  le_min (by positivity) (by norm_num)

/-- The distance factor is never above 1. -/
theorem distance_factor_le_one (m : ℚ) : distance_factor m ≤ 1 := by
  unfold distance_factor
  split_ifs with h
  · exact le_refl 1
  · exact min_le_right _ _

/-- The distance factor is nonnegative for nonnegative miss distances. -/
theorem distance_factor_nonneg {m : ℚ} (hm : 0 ≤ m) : 0 ≤ distance_factor m := by
  unfold distance_factor
  split_ifs with h
  · norm_num
  · have hpos : 0 < m := lt_of_le_of_ne hm (Ne.symm h)
    exact le_min (by positivity) (by norm_num)

/-- The size factor grows with the diameter. -/
theorem size_factor_mono {d1 d2 : ℚ} (h : d1 ≤ d2) :
    size_factor d1 ≤ size_factor d2 :=
  min_le_min ((div_le_div_iff_of_pos_right (by norm_num)).mpr h) le_rfl

/-- The distance factor shrinks as the miss distance grows (away from 0). -/
theorem distance_factor_anti {m1 m2 : ℚ} (h1 : 0 < m1) (h : m1 ≤ m2) :
    distance_factor m2 ≤ distance_factor m1 := by
  have h2 : 0 < m2 := lt_of_lt_of_le h1 h
  unfold distance_factor
  rw [if_neg (ne_of_gt h1), if_neg (ne_of_gt h2)]
  exact min_le_min (div_le_div_of_nonneg_left (by norm_num) h1 h) le_rfl

/-- C1: the corpus-level aggregate has no division guard.  On the empty
record set the hazardous-percentage and mean-diameter computations hit the
unguarded division (`none`, the modelled division fault / silent `nan`)
instead of an explicit empty-corpus error value; on a non-empty set the
percentage is `hazardous_count / total * 100` as claimed. -/
theorem claim_C1_division_guard_missing :
    hazardous_pct [] = none ∧ mean_avg_diameter [] = none ∧
    hazardous_pct [hazRec, nonHazRec] = some 50 := by
  refine ⟨rfl, rfl, ?_⟩
  norm_num [hazardous_pct, hazardous_count, hazRec, nonHazRec, mkRec]

/-- C2: for a hazardous record with miss distance 0 the scorer does not
fault: the distance factor is the clamped value 1, the same value any
positive miss distance up to 1000000 km produces, and the score reduces to
the well-defined expression with distance term 3/10. -/
theorem claim_C2 (r : FlatRecord) (hz : r.is_hazardous = true)
    (h0 : r.miss_distance_km = 0) :
    distance_factor r.miss_distance_km = 1 ∧
    (∀ m : ℚ, 0 < m → m ≤ 1000000 →
      distance_factor m = distance_factor r.miss_distance_km) ∧
    hazard_level r = (size_factor r.avg_diameter_km * (7 / 10) + 3 / 10) * 100 := by
  have hdf : distance_factor r.miss_distance_km = 1 := by
    rw [h0]; simp [distance_factor]
  refine ⟨hdf, ?_, ?_⟩
  · intro m hm hle
    rw [hdf]
    unfold distance_factor
    rw [if_neg (ne_of_gt hm)]
    exact min_eq_right ((one_le_div hm).mpr hle)
  · simp only [hazard_level, hz, if_true]
    rw [hdf]
    ring

/-- Closed instance of `claim_C2` at the concrete record `recMiss0`. -/
theorem claim_C2_witness :
    distance_factor recMiss0.miss_distance_km = 1 ∧
    distance_factor 5 = distance_factor recMiss0.miss_distance_km ∧
    hazard_level recMiss0
      = (size_factor recMiss0.avg_diameter_km * (7 / 10) + 3 / 10) * 100 := by
  refine ⟨(claim_C2 recMiss0 rfl rfl).1, ?_, (claim_C2 recMiss0 rfl rfl).2.2⟩
  exact (claim_C2 recMiss0 rfl rfl).2.1 5 (by norm_num) (by norm_num)

/-- C3 (counterexample): the pipeline imposes no sign constraint on the
parsed diameters, and a hazardous record with a negative average diameter
scores below 0, so the claimed bound `0 ≤ score` does not hold for every
`FlatRecord`. -/
theorem claim_C3_counterexample :
    normalize negResponse = [negDiaRecord] ∧ hazard_level negDiaRecord < 0 := by
  constructor
  · rfl
  · norm_num [hazard_level, negDiaRecord, size_factor, distance_factor, min_def]

/-- C3 (amended): for records whose average diameter and miss distance are
nonnegative the score lies in [0, 100]; for every record, a non-hazardous
flag forces score exactly 0 with the low tier, and a nonzero score only
arises for hazardous records. -/
theorem claim_C3_amended (r : FlatRecord) :
    (0 ≤ r.avg_diameter_km → 0 ≤ r.miss_distance_km →
      0 ≤ hazard_level r ∧ hazard_level r ≤ 100) ∧
    (r.is_hazardous = false →
      hazard_level r = 0 ∧ tier (hazard_level r) = Tier.low) ∧
    (hazard_level r ≠ 0 → r.is_hazardous = true) := by
  refine ⟨?_, ?_, ?_⟩
  · intro hd hm
    unfold hazard_level
    split_ifs with hz
    · have h1 := size_factor_nonneg hd
      have h2 := distance_factor_nonneg hm
      have h3 := size_factor_le_one r.avg_diameter_km
      have h4 := distance_factor_le_one r.miss_distance_km
      constructor <;> nlinarith
    · norm_num
  · intro hz
    have h0 : hazard_level r = 0 := by simp [hazard_level, hz]
    refine ⟨h0, ?_⟩
    rw [h0]
    norm_num [tier]
  · intro hne
    cases h : r.is_hazardous
    · exact absurd (by simp [hazard_level, h]) hne
    · rfl

/-- Closed instance of `claim_C3_amended` at concrete records. -/
theorem claim_C3_amended_witness :
    (0 ≤ hazard_level okRecord ∧ hazard_level okRecord ≤ 100) ∧
    (hazard_level nonHazRec = 0 ∧ tier (hazard_level nonHazRec) = Tier.low) := by
  constructor
  · exact (claim_C3_amended okRecord).1 (by norm_num [okRecord, mkRec])
      (by norm_num [okRecord, mkRec])
  · exact (claim_C3_amended nonHazRec).2.1 rfl

/-- C5: the normalization loop indexes every required nested field directly
with no handler, so a payload holding a malformed object (missing minimum
diameter) and a well-formed object aborts with the propagated `KeyError`
and yields no records, although one well-formed qualifying object is
present and alone would normalize to one record. -/
theorem claim_C5_batch_abort :
    normalizeChecked mixedResponse = Except.error () ∧
    normalizeChecked wellOnlyResponse = Except.ok [wellRecord] ∧
    wellFormedQualifyingCount mixedResponse = 1 := by
  refine ⟨rfl, rfl, rfl⟩

/-- C6: the Normalizer emits at most one record per object in the payload
mapping, with equality exactly when every object has a non-empty
close-approach sequence; the payload holding only an approach-free object
normalizes to the empty sequence. -/
theorem claim_C6 (r : RawResponse) :
    (normalize r).length ≤ totalObjectCount r ∧
    ((normalize r).length = totalObjectCount r ↔
      ∀ p ∈ r.near_earth_objects, ∀ a ∈ p.2, a.close_approach_data ≠ []) ∧
    normalize noApproachResponse = [] := by
  have hle : ∀ p : String × List RawObject,
      (p.2.filterMap (flattenObject p.1)).length ≤ p.2.length :=
    fun p => length_filterMap_le' _ _
  have hlen : (normalize r).length
      = (r.near_earth_objects.map
          fun p => (p.2.filterMap (flattenObject p.1)).length).sum := by
    unfold normalize
    exact length_flatMap_eq _ _
  refine ⟨?_, ?_, rfl⟩
  · rw [hlen]
    unfold totalObjectCount
    exact sum_map_le_nat _ _ _ fun p _ => hle p
  · rw [hlen]
    unfold totalObjectCount
    refine Iff.trans (sum_map_eq_iff_nat _ _ _ fun p _ => hle p) ?_
    refine forall_congr' fun p => forall_congr' fun hp => ?_
    rw [length_filterMap_eq_iff']
    refine forall_congr' fun a => forall_congr' fun ha => ?_
    exact flattenObject_isSome_iff p.1 a

/-- C7: the validator never changes the start date, signals clamping
exactly when the requested span exceeds 7 days, and returns the end date
clamped to `start + 7` in that case and unchanged otherwise. -/
theorem claim_C7 (s e : ℤ) :
    (clampWindow s e).start_date = s ∧
    ((clampWindow s e).clamped = true ↔ 7 < e - s) ∧
    (clampWindow s e).end_date = if 7 < e - s then s + 7 else e := by
  unfold clampWindow
  split_ifs with h <;> simp [h]

/-- C8: the hazardous-only filter and the minimum-size filter commute: for
every state and record list, applying them in either order yields the same
list. -/
theorem claim_C8 (s : SelectionState) (l : List FlatRecord) :
    filterSize s (filterHazard s l) = filterHazard s (filterSize s l) := by
  cases h : s.hazardous_only
  · simp [filterHazard, filterSize, h]
  · simp only [filterHazard, filterSize, h, if_true]
    rw [List.filter_filter, List.filter_filter]
    congr 1
    funext r
    exact Bool.and_comm _ _

/-- C9: the spec's worked scenario: the payload with one "Rock" object
normalizes to exactly one record with average diameter 0.2 = (0.1+0.3)/2,
and the scorer yields size factor 0.4, distance factor 1, score 58, tier
medium. -/
theorem claim_C9 :
    normalize rockResponse = [rockRecord] ∧
    rockRecord.avg_diameter_km = 1 / 5 ∧
    size_factor rockRecord.avg_diameter_km = 2 / 5 ∧
    distance_factor rockRecord.miss_distance_km = 1 ∧
    hazard_level rockRecord = 58 ∧
    tier (hazard_level rockRecord) = Tier.medium := by
  refine ⟨rfl, by norm_num [rockRecord], ?_, ?_, ?_, ?_⟩
  · norm_num [size_factor, rockRecord, min_def]
  · norm_num [distance_factor, rockRecord, min_def]
  · norm_num [hazard_level, size_factor, distance_factor, rockRecord, min_def]
  · norm_num [hazard_level, size_factor, distance_factor, tier, rockRecord, min_def]

/-- C10: for hazardous records with positive miss distance the score is
non-decreasing in the average diameter at a fixed miss distance, and
non-increasing in the miss distance at a fixed average diameter. -/
theorem claim_C10 (r1 r2 : FlatRecord)
    (hz1 : r1.is_hazardous = true) (hz2 : r2.is_hazardous = true)
    (hm1 : 0 < r1.miss_distance_km) (hm2 : 0 < r2.miss_distance_km) :
    (r1.miss_distance_km = r2.miss_distance_km →
      r1.avg_diameter_km ≤ r2.avg_diameter_km →
      hazard_level r1 ≤ hazard_level r2) ∧
    (r1.avg_diameter_km = r2.avg_diameter_km →
      r1.miss_distance_km ≤ r2.miss_distance_km →
      hazard_level r2 ≤ hazard_level r1) := by
  simp only [hazard_level, hz1, hz2, if_true]
  constructor
  · intro hm hd
    rw [hm]
    have := size_factor_mono hd
    nlinarith
  · intro hd hm
    rw [hd]
    have := distance_factor_anti hm1 hm
    nlinarith

/-- Closed instances of `claim_C10` at the concrete monotonicity
fixtures. -/
theorem claim_C10_witness :
    hazard_level wrA ≤ hazard_level wrB ∧
    hazard_level wrD ≤ hazard_level wrC := by
  constructor
  · exact (claim_C10 wrA wrB rfl rfl (by norm_num [wrA, mkRec])
      (by norm_num [wrB, mkRec])).1 rfl (by norm_num [wrA, wrB, mkRec])
  · exact (claim_C10 wrC wrD rfl rfl (by norm_num [wrC, mkRec])
      (by norm_num [wrD, mkRec])).2 rfl (by norm_num [wrC, wrD, mkRec])

end NeoWS
